import Mathlib

/-!
Verification development for the domain signal aggregation and scoring
engine (`backend/domain_scanner.py` and `backend/webarchive_analyzer.py`).
External collaborators (DNS resolver, WHOIS client, TLS socket, archive
HTTP endpoints) are modelled as an oracle record: each raw external call
is an `Except String` value, `Except.error` standing for a raised Python
exception.  Machine behaviour (string lowercasing, substring tests,
Python truthiness) is embedded explicitly.
-/

/-- Substring test over explicit character lists: does `pat` occur
contiguously inside `hay`?  Embeds the Python expression `pat in hay`
for strings. -/
def containsSub (hay pat : List Char) : Bool :=
  hay.tails.any (fun t => pat.isPrefixOf t)

/-- Python `str.lower()` restricted to its ASCII action, as a character
list.  All indicator phrases are ASCII, so this matches the source's
`raw_data.lower()` on the text the classifier inspects. -/
def pyLower (s : String) : List Char := s.toList.map Char.toLower

/-- `self.available_indicators`, `domain_scanner.py` lines 23-38. -/
def available_indicators : List String := [
  "no match for", "not found", "no data found", "no entries found",
  "domain not found", "no object found", "no matching record",
  "status: free", "status: available", "is available for registration",
  "domain status: no object found", "no match!!", "not registered",
  "available for registration", "domain available", "available domain",
  "free domain", "domain free", "unregistered domain", "domain unregistered",
  "no match", "not found in database", "no matching record found",
  "domain name not found", "object does not exist", "no such domain",
  "domain status: available", "registration status: available",
  "state: available", "domain state: available", "available for purchase",
  "this domain is available", "domain is available", "can be registered",
  "eligible for registration", "free for registration", "open for registration",
  "ready for registration", "registration available", "status code: 210",
  "status code: 220", "response: 210", "response: 220"]

/-- `self.unavailable_indicators`, `domain_scanner.py` lines 40-55. -/
def unavailable_indicators : List String := [
  "registrar:", "registrant:", "creation date:", "updated date:",
  "expiration date:", "name server:", "nserver:", "status: registered",
  "status: active", "status: ok", "status: connect",
  "status: clienttransferprohibited", "status: servertransferprohibited",
  "domain status: registered", "domain status: active", "registration date:",
  "expiry date:", "registry expiry date:", "registrar registration expiration date:",
  "admin contact:", "tech contact:", "billing contact:", "dnssec:",
  "domain servers in listed order:", "registered domain", "registered on:",
  "expires on:", "last updated on:", "changed:", "holder:", "person:",
  "sponsoring registrar:", "whois server:", "referral url:", "domain name:",
  "registry domain id:", "registrar whois server:", "registrar url:",
  "registrar iana id:", "registrar abuse contact email:",
  "registrar abuse contact phone:", "reseller:", "domain status:",
  "name server", "dnssec: unsigned", "dnssec: signed"]

/-- `any(indicator in raw_lower for indicator in self.available_indicators)`,
`domain_scanner.py` line 142. -/
def whois_is_available_raw (raw_lower : List Char) : Bool :=
  available_indicators.any (fun ind => containsSub raw_lower ind.toList)

/-- `any(indicator in raw_lower for indicator in self.unavailable_indicators)`,
`domain_scanner.py` line 145. -/
def whois_is_registered_raw (raw_lower : List Char) : Bool :=
  unavailable_indicators.any (fun ind => containsSub raw_lower ind.toList)

/-- The registration classifier, `domain_scanner.py` lines 139-148:
given the raw WHOIS text, returns `(is_registered, is_available)` where
`is_available = is_available_indicator AND NOT is_registered`. -/
def whois_classify (raw : String) : Bool × Bool :=
  let raw_lower := pyLower raw
  let isA := whois_is_available_raw raw_lower
  let isR := whois_is_registered_raw raw_lower
  (isR, isA && !isR)

/-- The value the `whois.whois(domain)` collaborator call returns on a
non-raising attempt: its Python truthiness (`if w:`), the raw text
(`str(w)`), and the best-effort structured attributes read at
`domain_scanner.py` lines 131-136 (`none` models a missing/`None`
attribute; dates are abstract instants, always Python-truthy). -/
structure WhoisResp where
  truthy : Bool
  raw : String
  registrar : Option String
  creation_date : Option Nat
  expiration_date : Option Nat
  updated_date : Option Nat
  name_servers : List String
  status : List String

/-- The normalized WHOIS structure built by `check_whois_info`,
`domain_scanner.py` lines 110-123. -/
structure WhoisInfo where
  raw_data : String
  registrar : String
  creation_date : Option Nat
  expiration_date : Option Nat
  last_updated : Option Nat
  name_servers : List String
  status : List String
  registrant : String
  admin_contact : String
  tech_contact : String
  is_registered : Bool
  is_available : Bool
deriving Repr, DecidableEq

/-- The initial (and fault-default) `whois_info` dictionary,
`domain_scanner.py` lines 110-123. -/
def whoisInfoDefault : WhoisInfo :=
  ⟨"", "", none, none, none, [], [], "", "", "", false, false⟩

/-- The body of the successful branch of the retry loop,
`domain_scanner.py` lines 129-148: if `w` is truthy, populate the
structured fields and run the classifier; otherwise leave the defaults. -/
def whois_populate (w : WhoisResp) : WhoisInfo :=
  if w.truthy then
    let c := whois_classify w.raw
    { raw_data := w.raw
      registrar := w.registrar.getD ""
      creation_date := w.creation_date
      expiration_date := w.expiration_date
      last_updated := w.updated_date
      name_servers := w.name_servers
      status := w.status
      registrant := ""
      admin_contact := ""
      tech_contact := ""
      is_registered := c.1
      is_available := c.2 }
  else whoisInfoDefault

/-- Instrumented outcome of the `check_whois_info` retry loop: the
structure returned, the number of attempts made, and the list of sleep
durations performed between failed attempts. -/
structure WhoisRun where
  info : WhoisInfo
  attempts : Nat
  sleeps : List Nat
deriving Repr, DecidableEq

/-- The retry loop `for attempt in range(max_retries)`,
`domain_scanner.py` lines 125-157, counting from attempt index `i` with
`r` attempts remaining.  A non-raising call breaks the loop; a raising
call sleeps 2 time units unless it was the final attempt. -/
def whois_attempt_loop (att : Nat → Except String WhoisResp) : Nat → Nat → WhoisRun
  | _, 0 => ⟨whoisInfoDefault, 0, []⟩
  | i, r + 1 =>
    match att i with
    | Except.ok w => ⟨whois_populate w, 1, []⟩
    | Except.error _ =>
      if r = 0 then ⟨whoisInfoDefault, 1, []⟩
      else
        let rest := whois_attempt_loop att (i + 1) r
        ⟨rest.info, rest.attempts + 1, 2 :: rest.sleeps⟩

/-- `check_whois_info` with its effect trace; `att n` is the outcome of
the `n`-th `whois.whois(domain)` call (`Except.error` = raised). -/
def whois_run (att : Nat → Except String WhoisResp) (max_retries : Nat) : WhoisRun :=
  whois_attempt_loop att 0 max_retries

/-- `check_whois_info(domain, max_retries)`, `domain_scanner.py`
lines 108-159: the structure the fetcher returns to its caller. -/
def check_whois_info (att : Nat → Except String WhoisResp) (max_retries : Nat) : WhoisInfo :=
  (whois_run att max_retries).info

/-- An X.509 certificate as seen through `ssock.getpeercert()`,
`domain_scanner.py` lines 181-190.  `Except.ok none` models a falsy
(empty) certificate dictionary. -/
structure Cert where
  issuer : List (String × String)
  subject : List (String × String)
  notBefore : String
  notAfter : String
  serialNumber : String
  version : String
deriving Repr, DecidableEq

/-- Responses of the external collaborators for one domain, each raw
call an `Except` (`Except.error` = the call raised).  `now` is the
`datetime.now().isoformat()` clock reading; `whoisAtt n` is the outcome
of the `n`-th WHOIS attempt; the DNS fields are the per-record-kind
`dns.resolver.resolve` results (MX entries already formatted as
`"preference exchange"` strings, line 85).  `check_domain_signatures`
(lines 197-239) does not reuse the record's fetch results: it issues a
second `dns.resolver.resolve` for NS/A/MX, re-runs `check_whois_info`
(three fresh attempts) and re-runs `check_ssl_certificate`; the `ns2`,
`a2`, `mx2`, `whoisAtt2` and `ssl2` slots are the responses of that
second round, which the program in no way constrains to agree with the
first. -/
structure Oracle where
  now : String
  ns : Except String (List String)
  a : Except String (List String)
  mx : Except String (List String)
  txt : Except String (List String)
  cname : Except String (List String)
  whoisAtt : Nat → Except String WhoisResp
  ssl : Except String (Option Cert)
  ns2 : Except String (List String)
  a2 : Except String (List String)
  mx2 : Except String (List String)
  whoisAtt2 : Nat → Except String WhoisResp
  ssl2 : Except String (Option Cert)

/-- The `try/except: pass` pattern around one DNS record-kind query,
`domain_scanner.py` lines 69-101: a raised query degrades to `[]`. -/
def exceptList (e : Except String (List String)) : List String :=
  match e with
  | Except.ok l => l
  | Except.error _ => []

/-- The `dns_info` dictionary, `domain_scanner.py` lines 59-65. -/
structure DnsInfo where
  ns_records : List String
  a_records : List String
  mx_records : List String
  txt_records : List String
  cname_records : List String
deriving Repr, DecidableEq

/-- `check_dns_records(domain)`, `domain_scanner.py` lines 57-106:
five independent queries, each degrading to `[]` on failure. -/
def check_dns_records (o : Oracle) : DnsInfo :=
  ⟨exceptList o.ns, exceptList o.a, exceptList o.mx,
   exceptList o.txt, exceptList o.cname⟩

/-- The `ssl_info` dictionary, `domain_scanner.py` lines 163-172. -/
structure SslInfo where
  has_ssl : Bool
  issuer : List (String × String)
  subject : List (String × String)
  not_before : Option String
  not_after : Option String
  serial_number : String
  version : String
  signature_algorithm : String
deriving Repr, DecidableEq

/-- The initial (and fault-default) `ssl_info` dictionary,
`domain_scanner.py` lines 163-172. -/
def sslInfoDefault : SslInfo := ⟨false, [], [], none, none, "", "", ""⟩

/-- `check_ssl_certificate(domain)`, `domain_scanner.py` lines 161-195,
as a function of the outcome of its own connection/handshake call: any
fault, or a falsy certificate, leaves the default with
`has_ssl = false`. -/
def check_ssl_certificate (ssl : Except String (Option Cert)) : SslInfo :=
  match ssl with
  | Except.ok (some c) =>
    ⟨true, c.issuer, c.subject, some c.notBefore, some c.notAfter,
     c.serialNumber, c.version, ""⟩
  | Except.ok none => sslInfoDefault
  | Except.error _ => sslInfoDefault

/-- `check_domain_signatures(domain)`, `domain_scanner.py` lines 197-239:
issues fresh NS/A/MX queries, re-runs the WHOIS fetcher (default 3
retries, new attempts) and the TLS fetcher (new handshake), appending
one tag per observed evidence of that second round. -/
def check_domain_signatures (o : Oracle) : List String :=
  (match o.ns2 with
   | Except.ok l => if l ≠ [] then ["DNS_NS"] else []
   | Except.error _ => []) ++
  (match o.a2 with
   | Except.ok l => if l ≠ [] then ["DNS_A"] else []
   | Except.error _ => []) ++
  (match o.mx2 with
   | Except.ok l => if l ≠ [] then ["DNS_MX"] else []
   | Except.error _ => []) ++
  (if (check_whois_info o.whoisAtt2 3).is_registered then ["WHOIS"] else []) ++
  (if (check_ssl_certificate o.ssl2).has_ssl then ["SSL"] else [])

/-- The composite analysis record, `domain_scanner.py` lines 245-255.
`is_available` is `Option Bool`: `none` is the Python `None` it is
initialized to before the availability-copy step. -/
structure Analysis where
  domain : String
  timestamp : String
  dns_records : DnsInfo
  whois_info : WhoisInfo
  ssl_info : SslInfo
  signatures : List String
  is_available : Option Bool
  quality_score : Nat
  recommendations : List String
  error : Option String
deriving Repr, DecidableEq

/-- The record as initialized at `domain_scanner.py` lines 245-255,
before any fetch is attempted. -/
def initAnalysis (o : Oracle) (domain : String) : Analysis :=
  ⟨domain, o.now, ⟨[], [], [], [], []⟩, whoisInfoDefault, sslInfoDefault,
   [], none, 0, [], none⟩

/-- Python truthiness of an `Option Bool` (`None` and `False` falsy),
as tested by `if analysis[...]` on the availability verdict. -/
def truthyOptBool (b : Option Bool) : Bool := b.getD false

/-- `_calculate_quality_score(analysis)`, `domain_scanner.py`
lines 285-313: sequential weighted accumulation, clamped by
`min(score, 100)`. -/
def calculate_quality_score (a : Analysis) : Nat :=
  let score := 0
  let score := if a.dns_records.ns_records ≠ [] then score + 20 else score
  let score := if a.dns_records.a_records ≠ [] then score + 20 else score
  let score := if a.dns_records.mx_records ≠ [] then score + 15 else score
  let score := if a.dns_records.txt_records ≠ [] then score + 10 else score
  let score := if a.whois_info.registrar ≠ "" then score + 10 else score
  let score := if a.whois_info.creation_date.isSome then score + 10 else score
  let score := if a.whois_info.name_servers ≠ [] then score + 10 else score
  let score := if a.ssl_info.has_ssl then score + 15 else score
  min score 100

/-- `_generate_recommendations(analysis)`, `domain_scanner.py`
lines 315-335: four rules evaluated in order, each appending at most
one advisory. -/
def generate_recommendations (a : Analysis) : List String :=
  let recs : List String := []
  let recs := if truthyOptBool a.is_available then
      recs ++ ["Domain is available for registration"]
    else
      recs ++ ["Domain is already registered"]
  let recs := if a.dns_records.a_records = [] then
      recs ++ ["No A records found - domain may not be actively used"]
    else recs
  let recs := if !a.ssl_info.has_ssl then
      recs ++ ["No SSL certificate found - HTTPS not available"]
    else recs
  let recs := if a.quality_score < 50 then
      recs ++ ["Low quality score - limited web presence"]
    else if 80 < a.quality_score then
      recs ++ ["High quality score - strong web presence"]
    else recs
  recs

/-- The seven statements inside the `try` of `analyze_domain`,
`domain_scanner.py` lines 257-277, as in-place record updates in source
order: DNS, WHOIS, SSL, signatures, availability copy, score,
recommendations. -/
def analyzeSteps (o : Oracle) : List (Analysis → Analysis) :=
  [ fun a => { a with dns_records := check_dns_records o }
  , fun a => { a with whois_info := check_whois_info o.whoisAtt 3 }
  , fun a => { a with ssl_info := check_ssl_certificate o.ssl }
  , fun a => { a with signatures := check_domain_signatures o }
  , fun a => { a with is_available := some a.whois_info.is_available }
  , fun a => { a with quality_score := calculate_quality_score a }
  , fun a => { a with recommendations := generate_recommendations a } ]

/-- `analyze_domain(domain)`, `domain_scanner.py` lines 241-283: run
every step of the orchestrated sequence on the initialized record. -/
def analyze_domain (o : Oracle) (domain : String) : Analysis :=
  (analyzeSteps o).foldl (fun a f => f a) (initAnalysis o domain)

/-- The `except` branch of `analyze_domain`, lines 279-281: an
unexpected fault raised after the first `k` statements of the `try`
leaves the record populated up to that point, with the fault message
recorded in `error`, and the record is still returned. -/
def analyze_domain_faulted (o : Oracle) (domain : String) (k : Nat) (e : String) : Analysis :=
  let a := ((analyzeSteps o).take k).foldl (fun a f => f a) (initAnalysis o domain)
  { a with error := some e }

/-- One element of the batch result list: a full analysis record, or
the minimal failure stub appended at `domain_scanner.py` lines 354-358. -/
inductive BatchItem where
  | record (a : Analysis)
  | stub (domain err timestamp : String)
deriving Repr, DecidableEq

/-- The `results` dictionary of `batch_analyze_domains`,
`domain_scanner.py` lines 339-345. -/
structure BatchResult where
  total_domains : Nat
  processed : Nat
  successful : Nat
  failed : Nat
  domains : List BatchItem
deriving Repr, DecidableEq

/-- One iteration of the batch loop, `domain_scanner.py` lines 347-361:
`f d` is the per-domain analysis call as the loop's `try` observes it
(`Except.error` = the call raised). -/
def batchStep (f : String → Except String Analysis) (now : String)
    (r : BatchResult) (d : String) : BatchResult :=
  match f d with
  | Except.ok a =>
    { r with domains := r.domains ++ [BatchItem.record a],
             successful := r.successful + 1,
             processed := r.processed + 1 }
  | Except.error e =>
    { r with domains := r.domains ++ [BatchItem.stub d e now],
             failed := r.failed + 1,
             processed := r.processed + 1 }

/-- `batch_analyze_domains(domains)`, `domain_scanner.py`
lines 337-363. -/
def batch_analyze_domains (f : String → Except String Analysis) (now : String)
    (domains : List String) : BatchResult :=
  domains.foldl (batchStep f now) ⟨domains.length, 0, 0, 0, []⟩

/-- The item the batch loop appends for one domain. -/
def batchItemOf (f : String → Except String Analysis) (now : String)
    (d : String) : BatchItem :=
  match f d with
  | Except.ok a => BatchItem.record a
  | Except.error e => BatchItem.stub d e now

/-- Is an `Except` value a non-raising outcome? -/
def exceptOk {ε α : Type} (e : Except ε α) : Bool :=
  match e with
  | Except.ok _ => true
  | Except.error _ => false

/-- Responses of the archive collaborators for one domain:
`avail` is the `available` flag `check_wayback_availability` returns
(that helper is total, `webarchive_analyzer.py` lines 17-37); `count`
is the total `get_snapshot_count` returns (lines 39-52); `firstQ` and
`lastQ` are the oldest-sort and latest-sort CDX calls in
`analyze_webarchive` as (status code, JSON rows), `Except.error` = the
request or its JSON decoding raised. -/
structure WOracle where
  avail : Bool
  count : Nat
  firstQ : Except String (Nat × List (List String))
  lastQ : Except String (Nat × List (List String))

/-- The web-archive analysis record, `webarchive_analyzer.py`
lines 56-63. -/
structure WArchive where
  domain : String
  has_snapshots : Bool
  total_snapshots : Nat
  first_snapshot : Option String
  last_snapshot : Option String
  years_covered : Int
  error : Option String
deriving Repr, DecidableEq

/-- Python `int(s)` on a non-empty all-digit string, `none` when the
string is empty or has a non-digit (where `int` raises `ValueError`).
Sign/whitespace forms never occur in CDX timestamps. -/
def intOfDigits (cs : List Char) : Option Nat :=
  if cs ≠ [] ∧ cs.all Char.isDigit then
    some (cs.foldl (fun n c => 10 * n + (c.toNat - 48)) 0)
  else none

/-- `int(snapshot[:4])`, `webarchive_analyzer.py` lines 94-95. -/
def pyYear (s : String) : Option Nat := intOfDigits (s.toList.take 4)

/-- The guarded row access `if data and len(data) > 1: data[1][1]`,
`webarchive_analyzer.py` lines 79-80 and 89-90: `ok none` when the
guard fails (snapshot left `None`), `error` when row 1 has no second
column (`IndexError`). -/
def cdxRowGet (rows : List (List String)) : Except String (Option String) :=
  if h : 1 < rows.length then
    let row := rows.get ⟨1, h⟩
    if h2 : 1 < row.length then Except.ok (some (row.get ⟨1, h2⟩))
    else Except.error "list index out of range"
  else Except.ok none

/-- `analyze_webarchive(domain)`, `webarchive_analyzer.py` lines 54-102:
the availability check, snapshot count, the two directional CDX queries,
and the years-covered computation, with the outer `except` recording any
raised fault in `error` and returning the partial record. -/
def analyze_webarchive (o : WOracle) (domain : String) : WArchive :=
  let a0 : WArchive := ⟨domain, false, 0, none, none, 0, none⟩
  if o.avail then
    let a1 := { a0 with has_snapshots := true, total_snapshots := o.count }
    match o.firstQ with
    | Except.error e => { a1 with error := some e }
    | Except.ok fr =>
      match (if fr.1 = 200 then cdxRowGet fr.2 else Except.ok none) with
      | Except.error e => { a1 with error := some e }
      | Except.ok fs =>
        let a2 := { a1 with first_snapshot := fs }
        match o.lastQ with
        | Except.error e => { a2 with error := some e }
        | Except.ok lr =>
          match (if lr.1 = 200 then cdxRowGet lr.2 else Except.ok none) with
          | Except.error e => { a2 with error := some e }
          | Except.ok ls =>
            let a3 := { a2 with last_snapshot := ls }
            match fs, ls with
            | some f, some l =>
              if f ≠ "" ∧ l ≠ "" then
                match pyYear f with
                | none => { a3 with error := some "invalid year literal" }
                | some fy =>
                  match pyYear l with
                  | none => { a3 with error := some "invalid year literal" }
                  | some ly =>
                    { a3 with years_covered := (ly : Int) - (fy : Int) + 1 }
              else a3
            | _, _ => a3
  else a0

/-- Modelled from the spec (§4.1 and §8): the years-covered value as a
direct function of the recovered first/last snapshot timestamps —
`lastYear - firstYear + 1` when both are present (and their leading
four characters parse as years), `0` otherwise.  Compared against the
`analyze_webarchive` embedding. -/
def years_covered_spec (fs ls : Option String) : Int :=
  match fs, ls with
  | some f, some l =>
    if f ≠ "" ∧ l ≠ "" then
      match pyYear f, pyYear l with
      | some fy, some ly => (ly : Int) - (fy : Int) + 1
      | _, _ => 0
    else 0
  | _, _ => 0

/-- An oracle on which every external call raises: every signal source
unreachable. -/
def faultyOracle (e now : String) : Oracle :=
  ⟨now, Except.error e, Except.error e, Except.error e, Except.error e,
   Except.error e, fun _ => Except.error e, Except.error e,
   Except.error e, Except.error e, Except.error e,
   fun _ => Except.error e, Except.error e⟩

/-- A record with zero evidence: every field at its fetch default. -/
def zeroAnalysis : Analysis :=
  ⟨"example.com", "t", ⟨[], [], [], [], []⟩, whoisInfoDefault,
   sslInfoDefault, [], none, 0, [], none⟩

/-- A record with all eight scored evidence items present. -/
def fullEvidenceAnalysis : Analysis :=
  ⟨"example.com", "t",
   ⟨["ns1.example.com"], ["93.184.216.34"], ["10 mail.example.com"],
    ["v=spf1"], []⟩,
   { whoisInfoDefault with registrar := "Example Registrar",
                           creation_date := some 1,
                           name_servers := ["ns1.example.com"] },
   { sslInfoDefault with has_ssl := true },
   [], none, 0, [], none⟩

/-- A record whose internal analysis faulted: `error` is set, as
`analyze_domain` produces when its `except` branch runs. -/
def errAnalysis : Analysis :=
  analyze_domain_faulted (faultyOracle "x" "t") "example.com" 2 "internal fault"

theorem contains_append (l1 l2 : List String) (x : String) :
    (l1 ++ l2).contains x = (l1.contains x || l2.contains x) := by
  induction l1 with
  | nil => simp
  | cons h t ih =>
    simp only [List.cons_append, List.contains_cons, ih, Bool.or_assoc]

theorem score_acc_shape (c1 c2 c3 c4 c5 c6 c7 c8 : Bool) :
    (let s := 0
     let s := if c1 then s + 20 else s
     let s := if c2 then s + 20 else s
     let s := if c3 then s + 15 else s
     let s := if c4 then s + 10 else s
     let s := if c5 then s + 10 else s
     let s := if c6 then s + 10 else s
     let s := if c7 then s + 10 else s
     let s := if c8 then s + 15 else s
     min s 100) =
    min ((if c1 then 20 else 0) + (if c2 then 20 else 0) +
         (if c3 then 15 else 0) + (if c4 then 10 else 0) +
         (if c5 then 10 else 0) + (if c6 then 10 else 0) +
         (if c7 then 10 else 0) + (if c8 then 15 else 0)) 100 := by
  cases c1 <;> cases c2 <;> cases c3 <;> cases c4 <;> cases c5 <;>
    cases c6 <;> cases c7 <;> cases c8 <;> rfl

/-- Claim C1: the classifier computes `is_registered` as "some
unavailability indicator occurs in the lowercased text" and
`is_available` as "some availability indicator occurs AND NOT
is_registered"; the two flags are never both true; a text containing
both "creation date:" and "status: available" classifies as
registered and not available; both flags may be false. -/
theorem whois_classifier_claims :
    (∀ raw : String,
       (whois_classify raw).1 = whois_is_registered_raw (pyLower raw)) ∧
    (∀ raw : String,
       (whois_classify raw).2 =
         (whois_is_available_raw (pyLower raw) &&
          !whois_is_registered_raw (pyLower raw))) ∧
    (∀ raw : String,
       ((whois_classify raw).2 && (whois_classify raw).1) = false) ∧
    (∀ raw : String,
       containsSub (pyLower raw) (String.toList "creation date:") = true →
       containsSub (pyLower raw) (String.toList "status: available") = true →
       (whois_classify raw).1 = true ∧ (whois_classify raw).2 = false) ∧
    whois_classify "" = (false, false) := by
  refine ⟨fun raw => rfl, fun raw => rfl, fun raw => ?_, fun raw h1 h2 => ?_, rfl⟩
  · unfold whois_classify
    cases whois_is_registered_raw (pyLower raw) <;> simp
  · have hreg : whois_is_registered_raw (pyLower raw) = true := by
      unfold whois_is_registered_raw
      rw [List.any_eq_true]
      exact ⟨"creation date:", by decide, h1⟩
    unfold whois_classify
    simp [hreg]

theorem whois_classifier_claims_witness :
    containsSub (pyLower "Creation Date: 2020-01-01\nStatus: AVAILABLE")
      (String.toList "creation date:") = true ∧
    containsSub (pyLower "Creation Date: 2020-01-01\nStatus: AVAILABLE")
      (String.toList "status: available") = true ∧
    (whois_classify "Creation Date: 2020-01-01\nStatus: AVAILABLE").1 = true ∧
    (whois_classify "Creation Date: 2020-01-01\nStatus: AVAILABLE").2 = false :=
  ⟨rfl, rfl,
   (whois_classifier_claims.2.2.2.1
      "Creation Date: 2020-01-01\nStatus: AVAILABLE" rfl rfl).1,
   (whois_classifier_claims.2.2.2.1
      "Creation Date: 2020-01-01\nStatus: AVAILABLE" rfl rfl).2⟩

/-- Claim C2: the quality score equals `min(S, 100)` for the weighted
evidence sum `S` (NS 20, A 20, MX 15, TXT 10, registrar 10, creation
date 10, name servers 10, TLS 15), is always at most 100, is 0 on a
zero-evidence record, and is 100 when all eight items are present. -/
theorem quality_score_claims :
    (∀ a : Analysis,
       calculate_quality_score a =
         min ((if a.dns_records.ns_records ≠ [] then 20 else 0) +
              (if a.dns_records.a_records ≠ [] then 20 else 0) +
              (if a.dns_records.mx_records ≠ [] then 15 else 0) +
              (if a.dns_records.txt_records ≠ [] then 10 else 0) +
              (if a.whois_info.registrar ≠ "" then 10 else 0) +
              (if a.whois_info.creation_date.isSome then 10 else 0) +
              (if a.whois_info.name_servers ≠ [] then 10 else 0) +
              (if a.ssl_info.has_ssl then 15 else 0)) 100) ∧
    (∀ a : Analysis, calculate_quality_score a ≤ 100) ∧
    calculate_quality_score zeroAnalysis = 0 ∧
    calculate_quality_score fullEvidenceAnalysis = 100 := by
  refine ⟨fun a => ?_, fun a => ?_, rfl, rfl⟩
  · have h := score_acc_shape
      (decide (a.dns_records.ns_records ≠ []))
      (decide (a.dns_records.a_records ≠ []))
      (decide (a.dns_records.mx_records ≠ []))
      (decide (a.dns_records.txt_records ≠ []))
      (decide (a.whois_info.registrar ≠ ""))
      (a.whois_info.creation_date.isSome)
      (decide (a.whois_info.name_servers ≠ []))
      (a.ssl_info.has_ssl)
    simpa [calculate_quality_score, decide_eq_true_eq] using h
  · unfold calculate_quality_score
    exact Nat.min_le_right _ 100
theorem whois_loop_attempts_le (att : Nat → Except String WhoisResp) :
    ∀ r i, (whois_attempt_loop att i r).attempts ≤ r := by
  intro r
  induction r with
  | zero => intro i; exact Nat.le_refl 0
  | succ r ih =>
    intro i
    unfold whois_attempt_loop
    cases att i with
    | ok w => simp
    | error m =>
      by_cases hr : r = 0
      · subst hr; simp
      · simp only [hr, if_false]
        exact Nat.succ_le_succ (ih (i + 1))

theorem whois_loop_fail_spec (att : Nat → Except String WhoisResp) :
    ∀ r i, (∀ j, j < r → exceptOk (att (i + j)) = false) →
      whois_attempt_loop att i r = ⟨whoisInfoDefault, r, List.replicate (r - 1) 2⟩ := by
  intro r
  induction r with
  | zero => intro i h; rfl
  | succ r ih =>
    intro i h
    have h0 : exceptOk (att i) = false := by
      have := h 0 (Nat.succ_pos r)
      simpa using this
    unfold whois_attempt_loop
    cases hai : att i with
    | ok w => rw [hai] at h0; simp [exceptOk] at h0
    | error m =>
      by_cases hr : r = 0
      · subst hr; simp
      · have ih2 := ih (i + 1) (fun j hj => by
          have := h (j + 1) (Nat.succ_lt_succ hj)
          have harith : i + (j + 1) = i + 1 + j := by omega
          rw [harith] at this
          exact this)
        simp only [hr, if_false, ih2]
        cases r with
        | zero => exact absurd rfl hr
        | succ r2 => simp [List.replicate_succ]

theorem whois_loop_first_success (att : Nat → Except String WhoisResp) :
    ∀ t r i, t < r →
      exceptOk (att (i + t)) = true →
      (∀ j, j < t → exceptOk (att (i + j)) = false) →
      (whois_attempt_loop att i r).attempts = t + 1 := by
  intro t
  induction t with
  | zero =>
    intro r i hr hok hprev
    cases r with
    | zero => omega
    | succ r2 =>
      unfold whois_attempt_loop
      cases hai : att i with
      | ok w => simp
      | error m =>
        rw [Nat.add_zero, hai] at hok
        simp [exceptOk] at hok
  | succ t ih =>
    intro r i hr hok hprev
    cases r with
    | zero => omega
    | succ r2 =>
      have h0 : exceptOk (att i) = false := by
        have := hprev 0 (Nat.succ_pos t)
        simpa using this
      unfold whois_attempt_loop
      cases hai : att i with
      | ok w => rw [hai] at h0; simp [exceptOk] at h0
      | error m =>
        have hr2 : r2 ≠ 0 := by omega
        simp only [hr2, if_false]
        have harith : i + (t + 1) = i + 1 + t := by omega
        rw [harith] at hok
        have ihv := ih r2 (i + 1) (by omega) hok (fun j hj => by
          have := hprev (j + 1) (Nat.succ_lt_succ hj)
          have harith2 : i + (j + 1) = i + 1 + j := by omega
          rw [harith2] at this
          exact this)
        simp [ihv]

theorem whois_loop_sleeps_two (att : Nat → Except String WhoisResp) :
    ∀ r i, (whois_attempt_loop att i r).sleeps.all (fun s => s == 2) = true := by
  intro r
  induction r with
  | zero => intro i; rfl
  | succ r ih =>
    intro i
    unfold whois_attempt_loop
    cases att i with
    | ok w => rfl
    | error m =>
      by_cases hr : r = 0
      · subst hr; simp
      · simp only [hr, if_false, List.all_cons]
        simpa using ih (i + 1)
theorem analyzeSteps_preserve (o : Oracle) :
    ∀ f ∈ analyzeSteps o, ∀ a : Analysis,
      (f a).domain = a.domain ∧ (f a).timestamp = a.timestamp ∧
      (f a).error = a.error := by
  intro f hf a
  simp only [analyzeSteps, List.mem_cons, List.not_mem_nil, or_false] at hf
  rcases hf with h | h | h | h | h | h | h <;> subst h <;> exact ⟨rfl, rfl, rfl⟩

theorem foldl_preserve_fields (l : List (Analysis → Analysis))
    (hl : ∀ f ∈ l, ∀ a : Analysis,
      (f a).domain = a.domain ∧ (f a).timestamp = a.timestamp ∧
      (f a).error = a.error) :
    ∀ a : Analysis,
      (l.foldl (fun a f => f a) a).domain = a.domain ∧
      (l.foldl (fun a f => f a) a).timestamp = a.timestamp ∧
      (l.foldl (fun a f => f a) a).error = a.error := by
  induction l with
  | nil => intro a; exact ⟨rfl, rfl, rfl⟩
  | cons f t ih =>
    intro a
    have hf := hl f (List.mem_cons_self f t) a
    have ht := ih (fun g hg => hl g (List.mem_cons_of_mem f hg)) (f a)
    simp only [List.foldl_cons]
    exact ⟨ht.1.trans hf.1, ht.2.1.trans hf.2.1, ht.2.2.trans hf.2.2⟩

theorem faulted_prefix_fields (o : Oracle) (d : String) (k : Nat) :
    (((analyzeSteps o).take k).foldl (fun a f => f a) (initAnalysis o d)).domain = d ∧
    (((analyzeSteps o).take k).foldl (fun a f => f a) (initAnalysis o d)).timestamp = o.now ∧
    (((analyzeSteps o).take k).foldl (fun a f => f a) (initAnalysis o d)).error = none := by
  have h := foldl_preserve_fields ((analyzeSteps o).take k)
    (fun f hf => analyzeSteps_preserve o f (List.take_subset k (analyzeSteps o) hf))
    (initAnalysis o d)
  exact h
/-- Claim C3: every signal fetcher degrades to its defined empty/false
default when its external source faults, for any number of retries on
the WHOIS side, and the orchestrator returns a still-structured record
with the fault recorded in `error` — it never raises. -/
theorem analyze_domain_never_raises :
    (∀ e now : String, check_dns_records (faultyOracle e now) = ⟨[], [], [], [], []⟩) ∧
    (∀ (e : String) (m : Nat),
       check_whois_info (fun _ => Except.error e) m = whoisInfoDefault) ∧
    (∀ e : String, check_ssl_certificate (Except.error e) = sslInfoDefault) ∧
    (∀ (o : Oracle) (d : String) (k : Nat) (e : String),
       (analyze_domain_faulted o d k e).error = some e ∧
       (analyze_domain_faulted o d k e).domain = d ∧
       (analyze_domain_faulted o d k e).timestamp = o.now) := by
  refine ⟨fun e now => rfl, fun e m => ?_, fun e => rfl, fun o d k e => ?_⟩
  · unfold check_whois_info whois_run
    rw [whois_loop_fail_spec (fun _ => Except.error e) m 0 (fun j hj => rfl)]
  · have h := faulted_prefix_fields o d k
    unfold analyze_domain_faulted
    exact ⟨rfl, h.1, h.2.1⟩

/-- Claim C6: the WHOIS fetcher makes at most `max_retries` attempts,
stops at the first non-raising attempt, sleeps exactly 2 time units
between failed attempts, and on exhaustion returns the default
structure with both flags false, without raising. -/
theorem whois_retry_claims :
    (∀ (att : Nat → Except String WhoisResp) (m : Nat),
       (whois_run att m).attempts ≤ m) ∧
    (∀ (att : Nat → Except String WhoisResp) (m t : Nat),
       t < m → exceptOk (att t) = true →
       (∀ j, j < t → exceptOk (att j) = false) →
       (whois_run att m).attempts = t + 1) ∧
    (∀ (att : Nat → Except String WhoisResp) (m : Nat),
       (whois_run att m).sleeps.all (fun s => s == 2) = true) ∧
    (∀ (att : Nat → Except String WhoisResp) (m : Nat),
       (∀ j, j < m → exceptOk (att j) = false) →
       (whois_run att m).info = whoisInfoDefault ∧
       (whois_run att m).info.is_registered = false ∧
       (whois_run att m).info.is_available = false ∧
       (whois_run att m).attempts = m ∧
       (whois_run att m).sleeps = List.replicate (m - 1) 2) := by
  refine ⟨fun att m => whois_loop_attempts_le att m 0,
          fun att m t hm hok hprev => ?_,
          fun att m => whois_loop_sleeps_two att m 0,
          fun att m hfail => ?_⟩
  · unfold whois_run
    exact whois_loop_first_success att t m 0 hm (by simpa using hok)
      (fun j hj => by simpa using hprev j hj)
  · unfold whois_run
    rw [whois_loop_fail_spec att m 0 (fun j hj => by simpa using hfail j hj)]
    exact ⟨rfl, rfl, rfl, rfl, rfl⟩
/-- WHOIS attempt outcomes that raise twice, then return a falsy
response on the third call. -/
def attFailTwice : Nat → Except String WhoisResp := fun n =>
  if n = 2 then Except.ok ⟨false, "", none, none, none, none, [], []⟩
  else Except.error "connection timed out"

/-- WHOIS attempt outcomes that raise on every call. -/
def attAllFail : Nat → Except String WhoisResp :=
  fun _ => Except.error "connection timed out"

theorem whois_retry_claims_witness :
    (2 < 3 ∧ exceptOk (attFailTwice 2) = true ∧
     (∀ j, j < 2 → exceptOk (attFailTwice j) = false) ∧
     (whois_run attFailTwice 3).attempts = 3) ∧
    ((∀ j, j < 3 → exceptOk (attAllFail j) = false) ∧
     (whois_run attAllFail 3).info = whoisInfoDefault ∧
     (whois_run attAllFail 3).sleeps = List.replicate 2 2) :=
  ⟨⟨by decide, rfl, by decide,
    whois_retry_claims.2.1 attFailTwice 3 2 (by decide) rfl (by decide)⟩,
   ⟨fun j hj => rfl,
    (whois_retry_claims.2.2.2 attAllFail 3 (fun j hj => rfl)).1,
    (whois_retry_claims.2.2.2 attAllFail 3 (fun j hj => rfl)).2.2.2.2⟩⟩

theorem batch_foldl_spec (f : String → Except String Analysis) (now : String) :
    ∀ (ds : List String) (acc : BatchResult),
      ds.foldl (batchStep f now) acc =
        ⟨acc.total_domains,
         acc.processed + ds.length,
         acc.successful + ds.countP (fun d => exceptOk (f d)),
         acc.failed + ds.countP (fun d => !exceptOk (f d)),
         acc.domains ++ ds.map (batchItemOf f now)⟩ := by
  intro ds
  induction ds with
  | nil => intro acc; simp
  | cons d t ih =>
    intro acc
    simp only [List.foldl_cons, List.countP_cons, List.map_cons, List.length_cons]
    rw [ih]
    cases h : f d <;>
      simp [batchStep, batchItemOf, exceptOk, h] <;> omega

theorem batch_spec (f : String → Except String Analysis) (now : String)
    (ds : List String) :
    batch_analyze_domains f now ds =
      ⟨ds.length, ds.length,
       ds.countP (fun d => exceptOk (f d)),
       ds.countP (fun d => !exceptOk (f d)),
       ds.map (batchItemOf f now)⟩ := by
  unfold batch_analyze_domains
  rw [batch_foldl_spec]
  simp
/-- Claim C4: in a batch where analyzing domain K raises, the result
has `total = N`, `processed = N`, `failed ≥ 1`,
`processed = successful + failed`, the K-th entry is the failure stub
carrying the domain, the error and the timestamp, and every entry is
exactly the item its own domain's analysis produced, in input order. -/
theorem batch_fault_isolation (f : String → Except String Analysis) (now : String)
    (ds : List String) (k : Nat) (dK e : String)
    (hk : ds.get? k = some dK) (hf : f dK = Except.error e) :
    (batch_analyze_domains f now ds).total_domains = ds.length ∧
    (batch_analyze_domains f now ds).processed = ds.length ∧
    1 ≤ (batch_analyze_domains f now ds).failed ∧
    (batch_analyze_domains f now ds).processed =
      (batch_analyze_domains f now ds).successful +
      (batch_analyze_domains f now ds).failed ∧
    (batch_analyze_domains f now ds).domains.get? k =
      some (BatchItem.stub dK e now) ∧
    (∀ j dj, ds.get? j = some dj →
      (batch_analyze_domains f now ds).domains.get? j =
        some (batchItemOf f now dj)) := by
  rw [batch_spec]
  refine ⟨rfl, rfl, ?_, ?_, ?_, ?_⟩
  · have hmem : dK ∈ ds := List.get?_mem hk
    have hpos : 0 < ds.countP (fun d => !exceptOk (f d)) := by
      rw [List.countP_pos]
      exact ⟨dK, hmem, by simp [hf, exceptOk]⟩
    exact hpos
  · show ds.length =
        ds.countP (fun d => exceptOk (f d)) + ds.countP (fun d => !exceptOk (f d))
    have h := List.length_eq_countP_add_countP (fun d => exceptOk (f d)) ds
    simpa using h
  · show (ds.map (batchItemOf f now)).get? k = some (BatchItem.stub dK e now)
    rw [List.get?_map, hk]
    simp [batchItemOf, hf]
  · intro j dj hj
    show (ds.map (batchItemOf f now)).get? j = some (batchItemOf f now dj)
    rw [List.get?_map, hj]
    rfl

/-- A per-domain analysis call that raises on the middle domain only. -/
def faultAtB : String → Except String Analysis := fun d =>
  if d = "b.com" then Except.error "boom" else Except.ok zeroAnalysis

theorem batch_fault_isolation_witness :
    (["a.com", "b.com", "c.com"].get? 1 = some "b.com") ∧
    faultAtB "b.com" = Except.error "boom" ∧
    (batch_analyze_domains faultAtB "t" ["a.com", "b.com", "c.com"]).domains.get? 1 =
      some (BatchItem.stub "b.com" "boom" "t") ∧
    1 ≤ (batch_analyze_domains faultAtB "t" ["a.com", "b.com", "c.com"]).failed :=
  ⟨rfl, rfl,
   (batch_fault_isolation faultAtB "t" ["a.com", "b.com", "c.com"] 1 "b.com"
      "boom" rfl rfl).2.2.2.2.1,
   (batch_fault_isolation faultAtB "t" ["a.com", "b.com", "c.com"] 1 "b.com"
      "boom" rfl rfl).2.2.1⟩

/-- Claim C9: the batch driver counts a domain as successful exactly
when its analysis call did not raise — a record whose `error` field is
set still counts as successful, not failed — and with the real
`analyze_domain` (which is total: its handler catches every fault) the
failed counter is always 0. -/
theorem batch_success_counting_claims :
    (∀ (f : String → Except String Analysis) (now : String) (ds : List String),
       (batch_analyze_domains f now ds).successful =
         ds.countP (fun d => exceptOk (f d)) ∧
       (batch_analyze_domains f now ds).failed =
         ds.countP (fun d => !exceptOk (f d))) ∧
    (∀ (env : String → Oracle) (now : String) (ds : List String),
       (batch_analyze_domains
          (fun d => Except.ok (analyze_domain (env d) d)) now ds).failed = 0 ∧
       (batch_analyze_domains
          (fun d => Except.ok (analyze_domain (env d) d)) now ds).successful =
         ds.length) ∧
    errAnalysis.error = some "internal fault" ∧
    (batch_analyze_domains (fun _ => Except.ok errAnalysis) "t" ["x.com"]).successful = 1 ∧
    (batch_analyze_domains (fun _ => Except.ok errAnalysis) "t" ["x.com"]).failed = 0 ∧
    (batch_analyze_domains (fun _ => Except.ok errAnalysis) "t" ["x.com"]).domains =
      [BatchItem.record errAnalysis] := by
  refine ⟨fun f now ds => ?_, fun env now ds => ?_, rfl, rfl, rfl, rfl⟩
  · rw [batch_spec]
    exact ⟨rfl, rfl⟩
  · rw [batch_spec]
    constructor
    · show ds.countP (fun d => !exceptOk (Except.ok (analyze_domain (env d) d))) = 0
      simp [exceptOk]
    · show ds.countP (fun d => exceptOk (Except.ok (analyze_domain (env d) d))) = ds.length
      simp [exceptOk]
/-- Claim C5: the recommendations list is the in-order concatenation of
four rule outputs — availability verdict (always one advisory), no-A
advisory, no-TLS advisory, and a score advisory only outside [50, 80] —
and a record with all evidence empty produces exactly the four
advisories in that order. -/
theorem recommendations_claims :
    (∀ a : Analysis,
       generate_recommendations a =
         (if truthyOptBool a.is_available then
            ["Domain is available for registration"]
          else ["Domain is already registered"]) ++
         (if a.dns_records.a_records = [] then
            ["No A records found - domain may not be actively used"]
          else []) ++
         (if !a.ssl_info.has_ssl then
            ["No SSL certificate found - HTTPS not available"]
          else []) ++
         (if a.quality_score < 50 then
            ["Low quality score - limited web presence"]
          else if 80 < a.quality_score then
            ["High quality score - strong web presence"]
          else [])) ∧
    (∀ e now d : String,
       (analyze_domain (faultyOracle e now) d).recommendations =
         ["Domain is already registered",
          "No A records found - domain may not be actively used",
          "No SSL certificate found - HTTPS not available",
          "Low quality score - limited web presence"]) := by
  refine ⟨fun a => ?_, fun e now d => rfl⟩
  unfold generate_recommendations
  dsimp only
  split_ifs <;> rfl

/-- Claim C10: every field of the record is initialized before any
fetch: a record that faulted after any prefix of the sequence still
carries its domain, its start timestamp and the fault; and when the
fault lands before the availability-copy step, `is_available` is still
`none` while `quality_score` is 0 and `recommendations` is empty. -/
theorem faulted_record_defaults :
    (∀ (o : Oracle) (d : String) (k : Nat) (e : String),
       (analyze_domain_faulted o d k e).domain = d ∧
       (analyze_domain_faulted o d k e).timestamp = o.now ∧
       (analyze_domain_faulted o d k e).error = some e) ∧
    (∀ (o : Oracle) (d : String) (k : Nat) (e : String), k ≤ 4 →
       (analyze_domain_faulted o d k e).is_available = none ∧
       (analyze_domain_faulted o d k e).quality_score = 0 ∧
       (analyze_domain_faulted o d k e).recommendations = []) ∧
    (∀ (o : Oracle) (d : String),
       (analyze_domain o d).domain = d ∧
       (analyze_domain o d).timestamp = o.now ∧
       (analyze_domain o d).error = none) := by
  refine ⟨fun o d k e => ?_, fun o d k e hk => ?_, fun o d => ?_⟩
  · have h := faulted_prefix_fields o d k
    exact ⟨h.1, h.2.1, rfl⟩
  · interval_cases k <;> exact ⟨rfl, rfl, rfl⟩
  · have h := foldl_preserve_fields (analyzeSteps o) (analyzeSteps_preserve o)
      (initAnalysis o d)
    exact ⟨h.1, h.2.1, h.2.2⟩

theorem faulted_record_defaults_witness :
    2 ≤ 4 ∧
    (analyze_domain_faulted (faultyOracle "unreachable" "t") "example.com" 2
       "boom").is_available = none ∧
    (analyze_domain_faulted (faultyOracle "unreachable" "t") "example.com" 2
       "boom").quality_score = 0 ∧
    (analyze_domain_faulted (faultyOracle "unreachable" "t") "example.com" 2
       "boom").recommendations = [] :=
  ⟨by decide,
   (faulted_record_defaults.2.1 (faultyOracle "unreachable" "t") "example.com" 2
      "boom" (by decide)).1,
   (faulted_record_defaults.2.1 (faultyOracle "unreachable" "t") "example.com" 2
      "boom" (by decide)).2.1,
   (faulted_record_defaults.2.1 (faultyOracle "unreachable" "t") "example.com" 2
      "boom" (by decide)).2.2⟩
theorem string_beq_decide (x t : String) : (x == t) = decide (x = t) := by
  rw [Bool.eq_iff_iff]
  simp

theorem seg_match_contains (q : Except String (List String)) (t x : String) :
    ((match q with
      | Except.ok l => if l ≠ [] then [t] else []
      | Except.error _ => []) : List String).contains x =
    ((match q with
      | Except.ok l => !l.isEmpty
      | Except.error _ => false) && (x == t)) := by
  cases q with
  | ok l => cases l <;> simp [string_beq_decide]
  | error m => simp

theorem seg_ite_contains (c : Prop) [Decidable c] (t x : String) :
    ((if c then [t] else []) : List String).contains x =
      (decide c && (x == t)) := by
  split <;> simp_all [string_beq_decide]

/-- Oracle whose first NS query raises while the fresh NS re-query
inside `check_domain_signatures` succeeds; every other call raises. -/
def splitOracle : Oracle :=
  ⟨"t", Except.error "dns timeout", Except.error "dns timeout",
   Except.error "dns timeout", Except.error "dns timeout",
   Except.error "dns timeout", fun _ => Except.error "whois down",
   Except.error "tls down",
   Except.ok ["ns1.example.com"], Except.error "dns timeout",
   Except.error "dns timeout", fun _ => Except.error "whois down",
   Except.error "tls down"⟩

/-- Counterexample to claim C7 as stated: the record produced under
`splitOracle` carries the DNS_NS signature although its own
`dns_records.ns_records` is empty.  The signature round's fresh NS
query succeeded after the record's own NS query had failed, and
nothing in the program makes the two rounds agree. -/
theorem signatures_claims_counterexample :
    (analyze_domain splitOracle "example.com").signatures.contains "DNS_NS" = true ∧
    (analyze_domain splitOracle "example.com").dns_records.ns_records = [] :=
  ⟨rfl, rfl⟩

theorem signatures_tags_fresh (o : Oracle) :
    ((check_domain_signatures o).contains "DNS_NS" = !(exceptList o.ns2).isEmpty) ∧
    ((check_domain_signatures o).contains "DNS_A" = !(exceptList o.a2).isEmpty) ∧
    ((check_domain_signatures o).contains "DNS_MX" = !(exceptList o.mx2).isEmpty) ∧
    ((check_domain_signatures o).contains "WHOIS" =
       (check_whois_info o.whoisAtt2 3).is_registered) ∧
    ((check_domain_signatures o).contains "SSL" =
       (check_ssl_certificate o.ssl2).has_ssl) := by
  unfold check_domain_signatures
  refine ⟨?_, ?_, ?_, ?_, ?_⟩ <;>
  · rw [contains_append, contains_append, contains_append, contains_append,
        seg_match_contains, seg_match_contains, seg_match_contains,
        seg_ite_contains, seg_ite_contains]
    cases o.ns2 <;> cases o.a2 <;> cases o.mx2 <;> simp +decide [exceptList]

/-- Claim C7 (amended): the signature tags reflect the fresh second
round of queries `check_domain_signatures` itself issues — DNS_NS /
DNS_A / DNS_MX present exactly when the re-query returned at least one
record, WHOIS exactly when the re-run WHOIS fetch classified
registered, SSL exactly when the re-run TLS probe saw a certificate —
and the tags agree with the same record's `dns_records`, `whois_info`
and `ssl_info` fields whenever the second round's responses equal the
first round's. -/
theorem signatures_claims_amended (o : Oracle) (d : String) :
    ((analyze_domain o d).signatures.contains "DNS_NS" =
       !(exceptList o.ns2).isEmpty) ∧
    ((analyze_domain o d).signatures.contains "DNS_A" =
       !(exceptList o.a2).isEmpty) ∧
    ((analyze_domain o d).signatures.contains "DNS_MX" =
       !(exceptList o.mx2).isEmpty) ∧
    ((analyze_domain o d).signatures.contains "WHOIS" =
       (check_whois_info o.whoisAtt2 3).is_registered) ∧
    ((analyze_domain o d).signatures.contains "SSL" =
       (check_ssl_certificate o.ssl2).has_ssl) ∧
    (o.ns2 = o.ns → o.a2 = o.a → o.mx2 = o.mx →
     o.whoisAtt2 = o.whoisAtt → o.ssl2 = o.ssl →
       ((analyze_domain o d).signatures.contains "DNS_NS" =
          !(analyze_domain o d).dns_records.ns_records.isEmpty) ∧
       ((analyze_domain o d).signatures.contains "DNS_A" =
          !(analyze_domain o d).dns_records.a_records.isEmpty) ∧
       ((analyze_domain o d).signatures.contains "DNS_MX" =
          !(analyze_domain o d).dns_records.mx_records.isEmpty) ∧
       ((analyze_domain o d).signatures.contains "WHOIS" =
          (analyze_domain o d).whois_info.is_registered) ∧
       ((analyze_domain o d).signatures.contains "SSL" =
          (analyze_domain o d).ssl_info.has_ssl)) := by
  have hs : (analyze_domain o d).signatures = check_domain_signatures o := rfl
  have h := signatures_tags_fresh o
  rw [hs]
  refine ⟨h.1, h.2.1, h.2.2.1, h.2.2.2.1, h.2.2.2.2, ?_⟩
  intro h1 h2 h3 h4 h5
  have hd : (analyze_domain o d).dns_records = check_dns_records o := rfl
  have hw : (analyze_domain o d).whois_info = check_whois_info o.whoisAtt 3 := rfl
  have hssl : (analyze_domain o d).ssl_info = check_ssl_certificate o.ssl := rfl
  rw [hd, hw, hssl]
  unfold check_dns_records
  exact ⟨by rw [h.1, h1], by rw [h.2.1, h2], by rw [h.2.2.1, h3],
         by rw [h.2.2.2.1, h4], by rw [h.2.2.2.2, h5]⟩

/-- Oracle whose second-round responses equal its first-round ones. -/
def agreeOracle : Oracle :=
  ⟨"t", Except.ok ["ns1.example.com"], Except.error "dns timeout",
   Except.error "dns timeout", Except.error "dns timeout",
   Except.error "dns timeout", fun _ => Except.error "whois down",
   Except.error "tls down",
   Except.ok ["ns1.example.com"], Except.error "dns timeout",
   Except.error "dns timeout", fun _ => Except.error "whois down",
   Except.error "tls down"⟩

theorem signatures_claims_amended_witness :
    agreeOracle.ns2 = agreeOracle.ns ∧ agreeOracle.a2 = agreeOracle.a ∧
    agreeOracle.mx2 = agreeOracle.mx ∧
    agreeOracle.whoisAtt2 = agreeOracle.whoisAtt ∧
    agreeOracle.ssl2 = agreeOracle.ssl ∧
    ((analyze_domain agreeOracle "example.com").signatures.contains "DNS_NS" =
       !(analyze_domain agreeOracle "example.com").dns_records.ns_records.isEmpty) ∧
    ((analyze_domain agreeOracle "example.com").signatures.contains "SSL" =
       (analyze_domain agreeOracle "example.com").ssl_info.has_ssl) :=
  ⟨rfl, rfl, rfl, rfl, rfl,
   ((signatures_claims_amended agreeOracle "example.com").2.2.2.2.2
      rfl rfl rfl rfl rfl).1,
   ((signatures_claims_amended agreeOracle "example.com").2.2.2.2.2
      rfl rfl rfl rfl rfl).2.2.2.2⟩
theorem webarchive_years_general (o : WOracle) (d : String) :
    (analyze_webarchive o d).years_covered =
      years_covered_spec (analyze_webarchive o d).first_snapshot
        (analyze_webarchive o d).last_snapshot := by
  unfold analyze_webarchive
  repeat' split
  all_goals first
    | rfl
    | (simp_all [years_covered_spec]
       try (split <;> simp_all))

/-- Archive oracle with snapshots first seen in 2008 and last seen in
2023, each CDX response carrying its header row. -/
def cdxOracleEx : WOracle :=
  ⟨true, 5,
   Except.ok (200, [["urlkey", "timestamp"], ["k", "20080315120000"]]),
   Except.ok (200, [["urlkey", "timestamp"], ["k", "20231120000000"]])⟩

/-- Claim C8: `years_covered` equals `lastYear - firstYear + 1` (years
read from the first four characters of the snapshot timestamps) exactly
when both directional queries recovered a timestamp, and 0 otherwise;
first snapshot "20080315120000" with last snapshot "20231120000000"
yields 16. -/
theorem webarchive_years_claims :
    (∀ (o : WOracle) (d : String),
       (analyze_webarchive o d).years_covered =
         years_covered_spec (analyze_webarchive o d).first_snapshot
           (analyze_webarchive o d).last_snapshot) ∧
    (∀ ls : Option String, years_covered_spec none ls = 0) ∧
    (∀ fs : Option String, years_covered_spec fs none = 0) ∧
    (analyze_webarchive cdxOracleEx "example.org").first_snapshot =
      some "20080315120000" ∧
    (analyze_webarchive cdxOracleEx "example.org").last_snapshot =
      some "20231120000000" ∧
    (analyze_webarchive cdxOracleEx "example.org").years_covered = 16 := by
  refine ⟨webarchive_years_general, fun ls => rfl, fun fs => ?_, rfl, rfl, rfl⟩
  cases fs <;> rfl
